import Mathlib

/-!
A shallow embedding of `src/temp.py` (documentation-improvement pipeline) and
proofs of the specification's claims about it.

Modelling conventions:
- Python `str` is modelled as `List Char` (a sequence of code points), named `PyStr`.
- Python floats are idealised as `ℚ`; the IEEE NaN produced by `np.mean([])`
  is modelled as `Option.none`, so scores have type `Option ℚ`.
- Fallible external effects (HTTP fetch in `fetch_content`, the model API call
  in `anthropic_analysis`, the file write inside `save_to_file`) are oracles
  `PyStr → Except String PyStr` (resp. a failure pattern `PyStr → Bool` for
  writes); `Except.error` models a raised Python exception, the `String`
  being the exception message.
- Python whitespace is modelled by `Char.isWhitespace`.
-/

/-- Python `str`: a sequence of characters. -/
abbrev PyStr := List Char

/-- Python `s.strip()`: drop whitespace from both ends. -/
def pyStrip (l : PyStr) : PyStr :=
  ((l.dropWhile Char.isWhitespace).reverse.dropWhile Char.isWhitespace).reverse

/-- Python `s.split()` (no separator): whitespace-run splitting, no empty pieces. -/
def pyWords (l : PyStr) : List PyStr :=
  (l.splitOnP Char.isWhitespace).filter (fun w => !w.isEmpty)

/-- Python `len(sentence.split())` from `compute_readability`. -/
def wordCount (l : PyStr) : Nat := (pyWords l).length

/-- Model of `np.mean` over a Python list of numbers: NaN (here `none`) on the empty list. -/
def npMean (l : List ℚ) : Option ℚ :=
  if l.isEmpty then none else some (l.sum / (l.length : ℚ))

/-- Constant `MAX_CONTENT_LENGTH = 5000` (src/temp.py line 18). -/
def MAX_CONTENT_LENGTH : Nat := 5000

/-- The list `[s.strip() for s in content.split(".") if s.strip()]`
(src/temp.py line 68): split at literal periods, keep the segments whose
strip is non-empty, stripped. -/
def sentences (content : PyStr) : List PyStr :=
  ((content.splitOn '.').filter (fun s => !(pyStrip s).isEmpty)).map pyStrip

/-- Function `compute_readability` (src/temp.py lines 67-70): mean number of
whitespace-separated words over the period-delimited sentences. -/
def compute_readability (content : PyStr) : Option ℚ :=
  npMean ((sentences content).map (fun sentence => (wordCount sentence : ℚ)))

/-- Readability as the specification words it (§4.2): split at literal periods,
trim whitespace, discard empty results, count whitespace-separated words in
each retained sentence, return the arithmetic mean (NaN when no sentences). -/
def readability_spec (content : PyStr) : Option ℚ :=
  npMean ((((content.splitOn '.').map pyStrip).filter (fun s => !s.isEmpty)).map
    (fun sentence => (wordCount sentence : ℚ)))

/-- The fixed text of the `analyze_documentation` prompt before the content
(src/temp.py lines 48-51). -/
def analyzeHead : PyStr :=
  "\n    Analyze the following documentation and suggest improvements:\n    ```markdown\n    ".data

/-- The fixed text of the `analyze_documentation` prompt after the content
(src/temp.py lines 52-54). -/
def analyzeTail : PyStr :=
  "\n    ```\n    Provide recommendations for improved clarity, structure, and examples.\n    ".data

/-- The prompt built by `analyze_documentation` (src/temp.py lines 48-54):
the f-string with `content[:MAX_CONTENT_LENGTH]` interpolated. -/
def analyze_prompt (content : PyStr) : PyStr :=
  analyzeHead ++ content.take MAX_CONTENT_LENGTH ++ analyzeTail

/-- The fixed text of the `suggest_visuals` prompt before the content
(src/temp.py lines 59-62). -/
def visualsHead : PyStr :=
  "\n    Based on the following documentation, suggest diagrams, charts, or visuals:\n    ```markdown\n    ".data

/-- The fixed text of the `suggest_visuals` prompt after the content
(src/temp.py lines 63-64). -/
def visualsTail : PyStr := "\n    ```\n    ".data

/-- The prompt built by `suggest_visuals` (src/temp.py lines 59-64). -/
def visuals_prompt (content : PyStr) : PyStr :=
  visualsHead ++ content.take MAX_CONTENT_LENGTH ++ visualsTail

/-- Function `analyze_documentation` (src/temp.py lines 46-55): build the improvement
prompt and call `anthropic_analysis` (the completion oracle); API errors
propagate (are re-raised). -/
def analyze_documentation (anthropic_analysis : PyStr → Except String PyStr)
    (content : PyStr) : Except String PyStr :=
  anthropic_analysis (analyze_prompt content)

/-- Function `suggest_visuals` (src/temp.py lines 57-65): build the visuals prompt and
call `anthropic_analysis`; API errors propagate. -/
def suggest_visuals (anthropic_analysis : PyStr → Except String PyStr)
    (content : PyStr) : Except String PyStr :=
  anthropic_analysis (visuals_prompt content)

/-- The f-string of src/temp.py line 96 composing the enhanced document. -/
def enhanced_doc (improved_text visuals : PyStr) : PyStr :=
  "# Improved Documentation\n\n".data ++ improved_text ++
    "\n\n# Visual Suggestions\n\n".data ++ visuals

/-- The three accumulator sequences of `process_documentation`
(src/temp.py lines 83-85). -/
structure PipeState where
  original_scores : List (Option ℚ)
  improved_scores : List (Option ℚ)
  improved_docs : List PyStr

/-- The initial empty accumulators (src/temp.py lines 83-85). -/
def initState : PipeState := ⟨[], [], []⟩

/-- One iteration of the per-URL loop of `process_documentation`
(src/temp.py lines 87-100).  `fetch` is the behaviour of `fetch_content`
(transport/status failures are `Except.error`, re-raised to this loop);
`anthropic_analysis` is the completion oracle used by both analyzers.
The `try` block appends the original score right after the fetch, so a
failure in a later step leaves that entry behind; the bare `except`
catches any failure and falls through to the next URL. -/
def processURL (fetch anthropic_analysis : PyStr → Except String PyStr)
    (url : PyStr) (st : PipeState) : PipeState :=
  match fetch url with
  | Except.error _ => st
  | Except.ok content =>
    let st1 : PipeState :=
      { st with original_scores := st.original_scores ++ [compute_readability content] }
    match analyze_documentation anthropic_analysis content with
    | Except.error _ => st1
    | Except.ok improved_text =>
      match suggest_visuals anthropic_analysis content with
      | Except.error _ => st1
      | Except.ok visuals =>
        { st1 with
          improved_docs := st1.improved_docs ++ [enhanced_doc improved_text visuals],
          improved_scores :=
            st1.improved_scores ++ [compute_readability improved_text] }

/-- The `for url in urls` loop of `process_documentation`
(src/temp.py lines 87-100). -/
def processLoop (fetch anthropic_analysis : PyStr → Except String PyStr) :
    List PyStr → PipeState → PipeState
  | [], st => st
  | url :: rest, st =>
    processLoop fetch anthropic_analysis rest (processURL fetch anthropic_analysis url st)

/-- Model of `sklearn.metrics.mean_squared_error` on two Python lists of floats
(src/temp.py line 103): raises on inconsistent lengths, on empty inputs and
on NaN entries (sklearn input validation); otherwise the mean of the
element-wise squared differences. -/
def mean_squared_error (yt yp : List (Option ℚ)) : Except String ℚ :=
  if yt.length ≠ yp.length then
    Except.error "Found input variables with inconsistent numbers of samples"
  else if yt.length = 0 then
    Except.error "Found array with 0 sample(s)"
  else if none ∈ yt ∨ none ∈ yp then
    Except.error "Input contains NaN"
  else
    Except.ok ((((yt.zip yp).map
      (fun ab => (ab.1.getD 0 - ab.2.getD 0) ^ 2)).sum) / (yt.length : ℚ))

/-- The file system: an association list of written files, newest first. -/
abbrev FS := List (PyStr × PyStr)

/-- The `open`/`write` inside `save_to_file` (src/temp.py lines 74-75):
`writeFail` is the I/O failure pattern; an error models a raised `IOError`. -/
def fsWrite (writeFail : PyStr → Bool) (fs : FS) (filename content : PyStr) :
    Except String FS :=
  if writeFail filename then Except.error "IOError" else Except.ok ((filename, content) :: fs)

/-- Function `save_to_file` (src/temp.py lines 72-78): attempt the write; any failure
is logged and swallowed, the function always returns normally. -/
def save_to_file (writeFail : PyStr → Bool) (fs : FS)
    (filename content : PyStr) : FS :=
  match fsWrite writeFail fs filename content with
  | Except.ok fs2 => fs2
  | Except.error _ => fs

/-- The f-string `f"improved_doc_\x7bi + 1\x7d.md"` of src/temp.py line 110
(index `i` is 0-based from `enumerate`). -/
def filenameFor (i : Nat) : PyStr :=
  "improved_doc_".data ++ (Nat.repr (i + 1)).data ++ ".md".data

/-- The `for i, doc in enumerate(improved_docs)` save loop
(src/temp.py lines 109-110).  Returns the ordered list of attempted writes
(filename, content) and the resulting file system. -/
def saveLoop (writeFail : PyStr → Bool) : Nat → List PyStr → FS →
    (List (PyStr × PyStr) × FS)
  | _, [], fs => ([], fs)
  | i, doc :: rest, fs =>
    let fn := filenameFor i
    let fs1 := save_to_file writeFail fs fn doc
    let next := saveLoop writeFail (i + 1) rest fs1
    ((fn, doc) :: next.1, next.2)

/-- The observable outcome of a completed `process_documentation` run: the
two logged score sequences, the logged MSE, the attempted file writes in
order, and the final file system. -/
structure PipeResult where
  original_scores : List (Option ℚ)
  improved_scores : List (Option ℚ)
  mse : ℚ
  saved : List (PyStr × PyStr)
  fs : FS

/-- Function `process_documentation` (src/temp.py lines 81-110): run the per-URL loop,
compute the aggregate metric (unguarded: an error here propagates and kills
the process before any file is written), then save each improved document. -/
def process_documentation (fetch anthropic_analysis : PyStr → Except String PyStr)
    (writeFail : PyStr → Bool) (urls : List PyStr) : Except String PipeResult :=
  let st := processLoop fetch anthropic_analysis urls initState
  match mean_squared_error st.original_scores st.improved_scores with
  | Except.error e => Except.error e
  | Except.ok m =>
    let sv := saveLoop writeFail 0 st.improved_docs []
    Except.ok ⟨st.original_scores, st.improved_scores, m, sv.1, sv.2⟩


/-! Concrete oracle instances used to instantiate theorems at specific runs. -/

/-- A fetch oracle that always succeeds with the two-word document "a b. ". -/
def fetchOkA : PyStr → Except String PyStr := fun _ => Except.ok "a b. ".data

/-- A fetch oracle that always fails (e.g. HTTP 404). -/
def fetchErr : PyStr → Except String PyStr := fun _ => Except.error "404"

/-- A completion oracle that always fails (e.g. API auth error). -/
def complFail : PyStr → Except String PyStr := fun _ => Except.error "api down"

/-- A completion oracle that always answers with the two-word text "x y.". -/
def complOk : PyStr → Except String PyStr := fun _ => Except.ok "x y.".data

/-- A write-failure pattern under which every file write succeeds. -/
def wfNone : PyStr → Bool := fun _ => false

/-! Helper lemmas about the per-URL step, the loop, the metric and the saves. -/

theorem processURL_fetch_error {f c : PyStr → Except String PyStr} {url : PyStr}
    {e : String} (st : PipeState) (hf : f url = Except.error e) :
    processURL f c url st = st := by
  unfold processURL
  rw [hf]

theorem processURL_analysis_error {f c : PyStr → Except String PyStr} {url content : PyStr}
    {e : String} (st : PipeState) (hf : f url = Except.ok content)
    (hA : analyze_documentation c content = Except.error e) :
    processURL f c url st =
      { st with original_scores := st.original_scores ++ [compute_readability content] } := by
  unfold processURL
  rw [hf]
  simp only [hA]

theorem processURL_visuals_error {f c : PyStr → Except String PyStr}
    {url content imp : PyStr} {e : String} (st : PipeState)
    (hf : f url = Except.ok content)
    (hA : analyze_documentation c content = Except.ok imp)
    (hV : suggest_visuals c content = Except.error e) :
    processURL f c url st =
      { st with original_scores := st.original_scores ++ [compute_readability content] } := by
  unfold processURL
  rw [hf]
  simp only [hA, hV]

theorem processURL_success {f c : PyStr → Except String PyStr}
    {url content imp vis : PyStr} (st : PipeState)
    (hf : f url = Except.ok content)
    (hA : analyze_documentation c content = Except.ok imp)
    (hV : suggest_visuals c content = Except.ok vis) :
    processURL f c url st =
      { original_scores := st.original_scores ++ [compute_readability content],
        improved_scores := st.improved_scores ++ [compute_readability imp],
        improved_docs := st.improved_docs ++ [enhanced_doc imp vis] } := by
  unfold processURL
  rw [hf]
  simp only [hA, hV]

theorem processLoop_inv (f c : PyStr → Except String PyStr) (P : PipeState → Prop)
    (hstep : ∀ url st, P st → P (processURL f c url st)) :
    ∀ (urls : List PyStr) (st : PipeState), P st → P (processLoop f c urls st) := by
  intro urls
  induction urls with
  | nil => intro st h; exact h
  | cons u rest ih => intro st h; exact ih _ (hstep u st h)

theorem Except_ok_of_isOk {α : Type} (e : Except String α) (h : e.isOk = true) :
    ∃ v, e = Except.ok v := by
  cases e with
  | error s => simp [Except.isOk, Except.toBool] at h
  | ok v => exact ⟨v, rfl⟩

theorem mean_squared_error_isOk_iff (yt yp : List (Option ℚ)) :
    (mean_squared_error yt yp).isOk = true ↔
      (yt.length = yp.length ∧ yt ≠ [] ∧ none ∉ yt ∧ none ∉ yp) := by
  unfold mean_squared_error
  split_ifs with h1 h2 h3
  · simp only [Except.isOk, Except.toBool, Bool.false_eq_true, false_iff]
    intro hc
    exact h1 hc.1
  · simp only [Except.isOk, Except.toBool, Bool.false_eq_true, false_iff]
    intro hc
    exact hc.2.1 (List.length_eq_zero.mp h2)
  · simp only [Except.isOk, Except.toBool, Bool.false_eq_true, false_iff]
    intro hc
    rcases h3 with h | h
    · exact hc.2.2.1 h
    · exact hc.2.2.2 h
  · push_neg at h1 h3
    simp only [Except.isOk, Except.toBool, true_iff]
    exact ⟨h1, fun hc => h2 (by simp [hc]), h3.1, h3.2⟩

theorem exists_map_some {l : List (Option ℚ)} (h : none ∉ l) :
    ∃ v : List ℚ, l = v.map some := by
  induction l with
  | nil => exact ⟨[], rfl⟩
  | cons a t ih =>
    have ha : a ≠ none := fun hc => h (by simp [hc])
    obtain ⟨x, hx⟩ := Option.ne_none_iff_exists.mp ha
    obtain ⟨v, hv⟩ := ih (fun hc => h (List.mem_cons_of_mem _ hc))
    exact ⟨x :: v, by simp [← hx, hv]⟩

theorem saveLoop_fst (writeFail : PyStr → Bool) :
    ∀ (docs : List PyStr) (i : Nat) (fs : FS),
      (saveLoop writeFail i docs fs).1 =
        (List.enumFrom i docs).map (fun x => (filenameFor x.1, x.2)) := by
  intro docs
  induction docs with
  | nil => intro i fs; rfl
  | cons d rest ih =>
    intro i fs
    simp [saveLoop, List.enumFrom, ih]

theorem mean_squared_error_ok (yt yp : List (Option ℚ))
    (h1 : yt.length = yp.length) (h2 : yt ≠ []) (h3 : none ∉ yt) (h4 : none ∉ yp) :
    mean_squared_error yt yp =
      Except.ok ((((yt.zip yp).map
        (fun ab => (ab.1.getD 0 - ab.2.getD 0) ^ 2)).sum) / (yt.length : ℚ)) := by
  unfold mean_squared_error
  split_ifs with a b c
  · exact absurd h1 a
  · exact absurd (List.length_eq_zero.mp b) h2
  · rcases c with h | h
    · exact absurd h h3
    · exact absurd h h4
  · rfl

theorem filter_map_swap (l : List PyStr) :
    ((l.filter (fun s => !(pyStrip s).isEmpty)).map pyStrip) =
      ((l.map pyStrip).filter (fun s => !s.isEmpty)) := by
  induction l with
  | nil => rfl
  | cons a t ih => cases h : (pyStrip a).isEmpty <;> simp [List.filter_cons, h, ih]

/-- C2: `compute_readability` returns the arithmetic mean, over the non-empty
whitespace-trimmed segments obtained by splitting the text at literal periods,
of the number of whitespace-separated words per segment (stated as agreement
with `readability_spec`, the spec-worded definition); a zero-segment input
yields the NaN degenerate result (`none`), and a single-sentence input of
exactly W words yields score W. -/
theorem C2_compute_readability_correct (content : PyStr) :
    compute_readability content = readability_spec content
    ∧ (sentences content = [] → compute_readability content = none)
    ∧ (∀ s, sentences content = [s] →
        compute_readability content = some ((wordCount s : ℚ))) := by
  refine ⟨?_, ?_, ?_⟩
  · unfold compute_readability readability_spec sentences
    rw [filter_map_swap]
  · intro h
    simp [compute_readability, h, npMean]
  · intro s h
    simp [compute_readability, h, npMean]

/-- C2 witness: the input " . ." has no valid segment and scores NaN; the
single-sentence input "a b. " has exactly 2 words and scores 2. -/
theorem C2_witness :
    compute_readability " . .".data = none
    ∧ compute_readability "a b. ".data = some ((wordCount "a b".data : ℚ)) :=
  ⟨(C2_compute_readability_correct (" . .".data)).2.1 (by decide),
   (C2_compute_readability_correct ("a b. ".data)).2.2 ("a b".data) (by decide)⟩

/-- C1 counterexample: one URL whose fetch succeeds (content "a b. ") but
whose analysis call fails.  The loop reaches the aggregate-metric computation
with an original-scores sequence of length 1 and an improved-scores sequence
of length 0: the two sequences do not have equal length, and the failing URL
did contribute an entry to the original-scores sequence. -/
theorem C1_counterexample :
    (processLoop fetchOkA complFail ["u".data] initState).original_scores.length = 1
    ∧ (processLoop fetchOkA complFail ["u".data] initState).improved_scores.length = 0 := by
  decide

/-- C1 (amended): the improved-scores sequence is never longer than the
original-scores sequence; a URL whose fetch fails contributes an entry to
neither sequence; and when no URL can fail after a successful fetch (the
completion oracle never fails) the two sequences have equal length at the
aggregate-metric computation. -/
theorem C1_amended (f c : PyStr → Except String PyStr) (urls : List PyStr) :
    (processLoop f c urls initState).improved_scores.length ≤
      (processLoop f c urls initState).original_scores.length
    ∧ (∀ (e : String) (url : PyStr) (st : PipeState),
        f url = Except.error e → processURL f c url st = st)
    ∧ ((∀ p, (c p).isOk = true) →
        (processLoop f c urls initState).original_scores.length =
          (processLoop f c urls initState).improved_scores.length) := by
  refine ⟨?_, ?_, ?_⟩
  · have hstep : ∀ url st, st.improved_scores.length ≤ st.original_scores.length →
        (processURL f c url st).improved_scores.length ≤
          (processURL f c url st).original_scores.length := by
      intro url st h
      cases hf : f url with
      | error e => rw [processURL_fetch_error st hf]; exact h
      | ok content =>
        cases hA : analyze_documentation c content with
        | error e =>
          rw [processURL_analysis_error st hf hA]
          simp only [List.length_append, List.length_singleton]
          omega
        | ok imp =>
          cases hV : suggest_visuals c content with
          | error e =>
            rw [processURL_visuals_error st hf hA hV]
            simp only [List.length_append, List.length_singleton]
            omega
          | ok vis =>
            rw [processURL_success st hf hA hV]
            simp only [List.length_append, List.length_singleton]
            omega
    exact processLoop_inv f c _ hstep urls initState (by simp [initState])
  · intro e url st hf
    exact processURL_fetch_error st hf
  · intro hc
    have hstep : ∀ url st,
        st.original_scores.length = st.improved_scores.length →
        (processURL f c url st).original_scores.length =
          (processURL f c url st).improved_scores.length := by
      intro url st h
      cases hf : f url with
      | error e => rw [processURL_fetch_error st hf]; exact h
      | ok content =>
        obtain ⟨imp, hA⟩ := Except_ok_of_isOk _ (hc (analyze_prompt content))
        obtain ⟨vis, hV⟩ := Except_ok_of_isOk _ (hc (visuals_prompt content))
        rw [processURL_success st hf hA hV]
        simp only [List.length_append, List.length_singleton]
        omega
    exact processLoop_inv f c _ hstep urls initState rfl

/-- C1 witness: a fetch-failing URL leaves the state untouched, and a run in
which the completion oracle never fails produces equal-length score
sequences. -/
theorem C1_amended_witness :
    processURL fetchErr complOk ("u1".data) initState = initState
    ∧ (processLoop fetchOkA complOk ["u1".data] initState).original_scores.length =
        (processLoop fetchOkA complOk ["u1".data] initState).improved_scores.length :=
  ⟨(C1_amended fetchErr complOk []).2.1 "404" ("u1".data) initState rfl,
   (C1_amended fetchOkA complOk ["u1".data]).2.2 (fun _ => rfl)⟩

/-- C3: whenever `process_documentation` completes and logs an aggregate
metric, the two logged score sequences are equal-length non-empty sequences
of actual numbers, and the logged metric equals the mean of the element-wise
squared differences between the original-scores sequence and the
improved-scores sequence. -/
theorem C3_mse_correct (f c : PyStr → Except String PyStr) (wf : PyStr → Bool)
    (urls : List PyStr) (res : PipeResult)
    (h : process_documentation f c wf urls = Except.ok res) :
    ∃ o p : List ℚ,
      res.original_scores = o.map some
      ∧ res.improved_scores = p.map some
      ∧ o.length = p.length
      ∧ o ≠ []
      ∧ res.mse = (((o.zip p).map (fun ab => (ab.1 - ab.2) ^ 2)).sum) / (o.length : ℚ) := by
  simp only [ process_documentation] at h
  cases hm : mean_squared_error (processLoop f c urls initState).original_scores
      (processLoop f c urls initState).improved_scores with
  | error e => rw [hm] at h; exact absurd h (by simp)
  | ok m =>
    rw [hm] at h
    obtain ⟨hlen0, hne0, hn1, hn2⟩ := (mean_squared_error_isOk_iff _ _).mp (by rw [hm]; rfl)
    obtain ⟨o, ho⟩ := exists_map_some hn1
    obtain ⟨p, hp⟩ := exists_map_some hn2
    have hv := mean_squared_error_ok _ _ hlen0 hne0 hn1 hn2
    rw [hm] at hv
    have hmv := Except.ok.inj hv
    have hres := Except.ok.inj h
    refine ⟨o, p, ?_, ?_, ?_, ?_, ?_⟩
    · rw [← hres]; exact ho
    · rw [← hres]; exact hp
    · have h1 : o.length = (processLoop f c urls initState).original_scores.length := by
        rw [ho, List.length_map]
      have h2 : p.length = (processLoop f c urls initState).improved_scores.length := by
        rw [hp, List.length_map]
      rw [h1, h2, hlen0]
    · intro hc
      exact hne0 (by rw [ho, hc]; rfl)
    · rw [← hres]
      show m = _
      rw [hmv, ho, hp]
      simp [List.zip_map, List.map_map, Function.comp_def, Prod.map_fst, Prod.map_snd]

/-- The observable result of a fully successful one-URL run (fetch returns
"a b. ", both completions return "x y.", all writes succeed). -/
def runResA : PipeResult :=
  match process_documentation fetchOkA complOk wfNone ["u2".data] with
  | Except.ok r => r
  | Except.error _ => ⟨[], [], 0, [], []⟩

/-- C3 witness: the successful one-URL run instantiates the MSE claim. -/
theorem C3_witness :
    ∃ o p : List ℚ,
      runResA.original_scores = o.map some
      ∧ runResA.improved_scores = p.map some
      ∧ o.length = p.length
      ∧ o ≠ []
      ∧ runResA.mse = (((o.zip p).map (fun ab => (ab.1 - ab.2) ^ 2)).sum) / (o.length : ℚ) :=
  C3_mse_correct fetchOkA complOk wfNone ["u2".data] runResA rfl

/-- C4 counterexample: a non-empty URL list (one URL) whose fetch succeeds
but whose analysis call fails.  The loop completes and produces one original
score (the input is not empty and scores were produced), yet the
aggregate-metric computation raises (length mismatch), so the process does
not run to completion.  The claim's "only in the unguarded case of empty
input producing no scores at all" is refuted. -/
theorem C4_counterexample :
    ( process_documentation fetchOkA complFail wfNone ["u3".data]).isOk = false
    ∧ ["u3".data] ≠ []
    ∧ (processLoop fetchOkA complFail ["u3".data] initState).original_scores.length = 1 := by
  decide

/-- C4 (amended): every per-URL and per-write failure is caught, so the
process completes exactly when the aggregate-metric computation does not
raise; that computation raises exactly when the two score sequences have
unequal lengths, are empty, or contain a NaN readability score. -/
theorem C4_completion_iff (f c : PyStr → Except String PyStr) (wf : PyStr → Bool)
    (urls : List PyStr) :
    ( process_documentation f c wf urls).isOk = true ↔
      ((processLoop f c urls initState).original_scores.length =
          (processLoop f c urls initState).improved_scores.length
        ∧ (processLoop f c urls initState).original_scores ≠ []
        ∧ none ∉ (processLoop f c urls initState).original_scores
        ∧ none ∉ (processLoop f c urls initState).improved_scores) := by
  rw [← mean_squared_error_isOk_iff]
  simp only [ process_documentation]
  cases hmse : mean_squared_error (processLoop f c urls initState).original_scores
      (processLoop f c urls initState).improved_scores with
  | error e => exact Iff.rfl
  | ok m => exact Iff.rfl

/-- C5: a URL whose fetch raises contributes zero entries to all three
accumulator sequences (the state is unchanged) and the loop continues with
the remaining URLs. -/
theorem C5_fetch_failure_skip (f c : PyStr → Except String PyStr) (e : String)
    (url : PyStr) (st : PipeState) (rest : List PyStr)
    (hf : f url = Except.error e) :
    processURL f c url st = st
    ∧ processLoop f c (url :: rest) st = processLoop f c rest st := by
  have h1 := processURL_fetch_error (c := c) st hf
  exact ⟨h1, by simp [processLoop, h1]⟩

/-- C5 witness: a run whose single fetch fails with a 404. -/
theorem C5_witness :
    processURL fetchErr complFail ("u4".data) initState = initState
    ∧ processLoop fetchErr complFail ["u4".data] initState =
        processLoop fetchErr complFail [] initState :=
  C5_fetch_failure_skip fetchErr complFail "404" ("u4".data) initState [] rfl

/-- C6: for a successfully processed URL the appended improved readability
score is `compute_readability` applied to the improvement text alone (not to
the enhanced document, not to the visuals text). -/
theorem C6_improved_score_source (f c : PyStr → Except String PyStr)
    (url content imp vis : PyStr) (st : PipeState)
    (hf : f url = Except.ok content)
    (hA : analyze_documentation c content = Except.ok imp)
    (hV : suggest_visuals c content = Except.ok vis) :
    (processURL f c url st).improved_scores =
      st.improved_scores ++ [compute_readability imp] := by
  rw [processURL_success st hf hA hV]

/-- C6 witness: a fully successful URL appends the readability of the
improvement text "x y.". -/
theorem C6_witness :
    (processURL fetchOkA complOk ("u5".data) initState).improved_scores =
      initState.improved_scores ++ [compute_readability "x y.".data] :=
  C6_improved_score_source fetchOkA complOk ("u5".data) ("a b. ".data)
    ("x y.".data) ("x y.".data) initState rfl rfl rfl

/-- C7: both analyzer prompts embed the content unmodified when it is at or
under MAX_CONTENT_LENGTH characters, and exactly its first
MAX_CONTENT_LENGTH characters (a length-MAX_CONTENT_LENGTH leading part of
the content) when it is longer. -/
theorem C7_truncation (content : PyStr) :
    (content.length ≤ MAX_CONTENT_LENGTH →
      analyze_prompt content = analyzeHead ++ content ++ analyzeTail
      ∧ visuals_prompt content = visualsHead ++ content ++ visualsTail)
    ∧ (MAX_CONTENT_LENGTH < content.length →
      (content.take MAX_CONTENT_LENGTH).length = MAX_CONTENT_LENGTH
      ∧ (∃ rest, content = content.take MAX_CONTENT_LENGTH ++ rest)
      ∧ analyze_prompt content =
          analyzeHead ++ content.take MAX_CONTENT_LENGTH ++ analyzeTail
      ∧ visuals_prompt content =
          visualsHead ++ content.take MAX_CONTENT_LENGTH ++ visualsTail) := by
  constructor
  · intro h
    rw [analyze_prompt, visuals_prompt, List.take_of_length_le h]
    exact ⟨rfl, rfl⟩
  · intro h
    refine ⟨?_, ⟨content.drop MAX_CONTENT_LENGTH, ?_⟩, rfl, rfl⟩
    · rw [List.length_take]
      omega
    · rw [List.take_append_drop]

/-- C7 witness: a 2-character content is embedded unmodified; a
5001-character content is cut to exactly 5000 characters. -/
theorem C7_witness :
    (analyze_prompt "ab".data = analyzeHead ++ "ab".data ++ analyzeTail
      ∧ visuals_prompt "ab".data = visualsHead ++ "ab".data ++ visualsTail)
    ∧ ((List.replicate 5001 'a').take MAX_CONTENT_LENGTH).length =
        MAX_CONTENT_LENGTH :=
  ⟨(C7_truncation ("ab".data)).1 (by decide),
   ((C7_truncation (List.replicate 5001 'a')).2
     (by rw [List.length_replicate]; decide)).1⟩

/-- C8: `save_to_file` never propagates an I/O failure (its result is the
unchanged file system on failure, the extended one on success), and the save
loop attempts exactly the same ordered writes under any failure pattern as
under no failures: one document's failed write never prevents attempting the
remaining documents. -/
theorem C8_save_swallow (wf : PyStr → Bool) (fs fsb : FS) (fn content : PyStr)
    (docs : List PyStr) (i : Nat) :
    save_to_file wf fs fn content = (if wf fn then fs else (fn, content) :: fs)
    ∧ (saveLoop wf i docs fs).1 = (saveLoop (fun _ => false) i docs fsb).1 := by
  constructor
  · cases h : wf fn <;> simp [save_to_file, fsWrite, h]
  · rw [saveLoop_fst, saveLoop_fst]

/-- C9: for a successfully processed URL the appended enhanced document is
the "Improved Documentation" header, a blank-line separator, the improvement
text, a blank-line separator, the "Visual Suggestions" header, a blank-line
separator, and the visuals text, in that order. -/
theorem C9_enhanced_doc_layout (f c : PyStr → Except String PyStr)
    (url content imp vis : PyStr) (st : PipeState)
    (hf : f url = Except.ok content)
    (hA : analyze_documentation c content = Except.ok imp)
    (hV : suggest_visuals c content = Except.ok vis) :
    (processURL f c url st).improved_docs =
      st.improved_docs ++
        ["# Improved Documentation".data ++ "\n\n".data ++ imp ++ "\n\n".data ++
          "# Visual Suggestions".data ++ "\n\n".data ++ vis] := by
  rw [processURL_success st hf hA hV]
  have h1 : "# Improved Documentation\n\n".data =
      "# Improved Documentation".data ++ "\n\n".data := by decide
  have h2 : "\n\n# Visual Suggestions\n\n".data =
      "\n\n".data ++ ("# Visual Suggestions".data ++ "\n\n".data) := by decide
  simp [enhanced_doc, h1, h2]

/-- C9 witness: the fully successful URL run produces the two-section
document around the completion text "x y.". -/
theorem C9_witness :
    (processURL fetchOkA complOk ("u6".data) initState).improved_docs =
      initState.improved_docs ++
        ["# Improved Documentation".data ++ "\n\n".data ++ "x y.".data ++
          "\n\n".data ++ "# Visual Suggestions".data ++ "\n\n".data ++
          "x y.".data] :=
  C9_enhanced_doc_layout fetchOkA complOk ("u6".data) ("a b. ".data)
    ("x y.".data) ("x y.".data) initState rfl rfl rfl

/-- C10: every loop iteration preserves equality of the improved-documents
and improved-scores lengths (a document is appended exactly when its improved
score is), the whole loop maintains it from the empty state, and the save
loop attempts exactly one sequentially-named file per document in order, so
the k-th persisted file corresponds index-wise to the k-th improved score. -/
theorem C10_docs_scores_aligned (f c : PyStr → Except String PyStr)
    (urls : List PyStr) (wf : PyStr → Bool) :
    (∀ url st, st.improved_docs.length = st.improved_scores.length →
      (processURL f c url st).improved_docs.length =
        (processURL f c url st).improved_scores.length)
    ∧ (processLoop f c urls initState).improved_docs.length =
        (processLoop f c urls initState).improved_scores.length
    ∧ (saveLoop wf 0 ((processLoop f c urls initState).improved_docs) []).1 =
        (List.enumFrom 0 ((processLoop f c urls initState).improved_docs)).map
          (fun x => (filenameFor x.1, x.2)) := by
  have hstep : ∀ url st, st.improved_docs.length = st.improved_scores.length →
      (processURL f c url st).improved_docs.length =
        (processURL f c url st).improved_scores.length := by
    intro url st h
    cases hf : f url with
    | error e => rw [processURL_fetch_error st hf]; exact h
    | ok content =>
      cases hA : analyze_documentation c content with
      | error e => rw [processURL_analysis_error st hf hA]; exact h
      | ok imp =>
        cases hV : suggest_visuals c content with
        | error e => rw [processURL_visuals_error st hf hA hV]; exact h
        | ok vis =>
          rw [processURL_success st hf hA hV]
          simp only [List.length_append, List.length_singleton]
          omega
  exact ⟨hstep, processLoop_inv f c _ hstep urls initState rfl,
    saveLoop_fst wf _ 0 []⟩

/-- C10 witness: one successful iteration from the empty state preserves the
alignment of documents and improved scores. -/
theorem C10_witness :
    (processURL fetchOkA complOk ("u7".data) initState).improved_docs.length =
      (processURL fetchOkA complOk ("u7".data) initState).improved_scores.length :=
  (C10_docs_scores_aligned fetchOkA complOk [] wfNone).1 ("u7".data) initState rfl

/-- C4 witness: a fully successful one-URL run satisfies the completion
conditions, so the process runs to completion. -/
theorem C4_witness :
    ( process_documentation fetchOkA complOk wfNone ["u8".data]).isOk = true :=
  (C4_completion_iff fetchOkA complOk wfNone ["u8".data]).mpr (by decide)
